import Mathlib

/-!
Verification of the specific-manifest loader and batch-signing-key resolver
of `facilitator/src/manifest.rs` (prio-server).

The Rust module is embedded shallowly:

* `SpecificManifest`, `BatchSigningPublicKey`, `PacketEncryptionCertificate`
  mirror the serde-deserialized structs; the two `HashMap<String, _>` fields
  become association lists with first-match lookup (`hashMapGet`), which is
  how `HashMap::get` behaves on the maps produced by deserialization (keys
  are unique).
* Byte blobs are `List Nat` (each entry a byte value).
* External collaborators are abstracted as function parameters, exactly at
  the library boundary the source calls into:
  - `serde_json::from_reader` becomes a `decode : List Nat → Option SpecificManifest`
    parameter of `from_reader`;
  - `pem::parse` becomes a `pemParse : String → Option Pem` parameter of
    `batch_signing_public_key`;
  - `reqwest::Url::parse` becomes a `parseUrl : String → Option Url`
    parameter of the address-construction model.
* `anyhow` error values become the `ManifestError` inductive; the message a
  caller observes is `ManifestError.message`, transcribing the format/context
  strings of the source. The wrong-tag branch of the source passes a bare
  string literal to `anyhow!`, so its `\x7b\x7d` placeholder is part of the
  message text verbatim (no argument is supplied).
-/

set_option autoImplicit false

/-- Bytes of the Rust constant `ECDSA_P256_SPKI_PREFIX`: the fixed ASN.1
SubjectPublicKeyInfo header identifying an ECDSA P-256 public key. -/
def ECDSA_P256_SPKI_PREFIX_BYTES : List Nat :=
  [0x30, 0x59, 0x30, 0x13, 0x06, 0x07, 0x2a, 0x86, 0x48, 0xce, 0x3d, 0x02,
   0x01, 0x06, 0x08, 0x2a, 0x86, 0x48, 0xce, 0x3d, 0x03, 0x01, 0x07, 0x03,
   0x42, 0x00]

/-- Mirror of the Rust struct `BatchSigningPublicKey`. -/
structure BatchSigningPublicKey where
  public_key : String
  expiration : String
deriving DecidableEq

/-- Mirror of the Rust struct `PacketEncryptionCertificate`. -/
structure PacketEncryptionCertificate where
  certificate : String
deriving DecidableEq

/-- Mirror of the Rust struct `SpecificManifest`; the `HashMap` fields are
association lists. -/
structure SpecificManifest where
  format : Nat
  ingestion_bucket : String
  peer_validation_bucket : String
  batch_signing_public_keys : List (String × BatchSigningPublicKey)
  packet_encryption_certificates : List (String × PacketEncryptionCertificate)
deriving DecidableEq

/-- Mirror of the `pem::Pem` struct returned by `pem::parse`: the armor tag
and the base64-decoded contents. -/
structure Pem where
  tag : String
  contents : List Nat
deriving DecidableEq

/-- The single signature algorithm the resolver binds keys to:
`ring::signature::ECDSA_P256_SHA256_FIXED`. -/
inductive SignatureAlgorithm where
  | ECDSA_P256_SHA256_FIXED
deriving DecidableEq

/-- Mirror of `ring::signature::UnparsedPublicKey<Vec<u8>>` as constructed by
the resolver: the algorithm it is bound to and the raw key bytes. -/
structure UnparsedPublicKey where
  algorithm : SignatureAlgorithm
  raw_key_bytes : List Nat
deriving DecidableEq

/-- The error taxonomy of the module. Each constructor corresponds to one
distinct `anyhow` error construction site in the source. -/
inductive ManifestError where
  | SchemaError
  | UnsupportedFormatError (format : Nat)
  | UnknownKeyError (identifier : String)
  | PemParseError (identifier : String)
  | WrongPemTagError
  | TruncatedKeyError
  | UnrecognizedKeyTypeError
  | AddressConstructionError (msg : String)
  | RetrievalError
deriving DecidableEq

/-- The message each error site reports, transcribed from the source's
`context`/`anyhow!` strings. The wrong-tag site passes the literal
`"key for identifier \x7b\x7d is not a PEM encoded public key"` to `anyhow!`
without a format argument, so the placeholder stays in the message and the
identifier never appears. -/
def ManifestError.message : ManifestError → String
  | .SchemaError => "failed to decode JSON specific manifest"
  | .UnsupportedFormatError f => "unsupported manifest format " ++ toString f
  | .UnknownKeyError identifier => "no value for key " ++ identifier
  | .PemParseError identifier =>
      "failed to parse key entry " ++ identifier ++ " as PEM"
  | .WrongPemTagError =>
      "key for identifier \x7b\x7d is not a PEM encoded public key"
  | .TruncatedKeyError =>
      "PEM contents not long enough to contain ASN.1 encoded ECDSA P256 SubjectPublicKeyInfo"
  | .UnrecognizedKeyTypeError =>
      "PEM contents are not ASN.1 encoded ECDSA P256 SubjectPublicKeyInfo"
  | .AddressConstructionError msg => msg
  | .RetrievalError => "failed to open manifest file"

/-- First-match lookup in an association list, modelling `HashMap::get` on
the deserialized maps (whose keys are unique). -/
def hashMapGet {α : Type} (k : String) : List (String × α) → Option α
  | [] => none
  | (k2, v) :: rest => if k2 = k then some v else hashMapGet k rest

/-- Embedding of `SpecificManifest::from_reader` (after the byte stream is
read): `serde_json::from_reader` is the `decode` parameter; on schema failure
the error is `SchemaError`, and a decoded manifest with `format != 0` is
rejected with `UnsupportedFormatError`. -/
def from_reader (decode : List Nat → Option SpecificManifest)
    (input : List Nat) : Except ManifestError SpecificManifest :=
  match decode input with
  | none => .error .SchemaError
  | some manifest =>
      if manifest.format ≠ 0 then .error (.UnsupportedFormatError manifest.format)
      else .ok manifest

/-- Embedding of the PEM-decode-and-SPKI-validate portion of
`SpecificManifest::batch_signing_public_key` (source lines 113-132), acting
on the stored PEM string of one entry; `identifier` is used only in error
context. `pem::parse` is the `pemParse` parameter. -/
def decode_and_validate_key (pemParse : String → Option Pem)
    (public_key : String) (identifier : String) :
    Except ManifestError UnparsedPublicKey :=
  match pemParse public_key with
  | none => .error (.PemParseError identifier)
  | some pem =>
      if pem.tag ≠ "PUBLIC KEY" then .error .WrongPemTagError
      else if pem.contents.length < ECDSA_P256_SPKI_PREFIX_BYTES.length then
        .error .TruncatedKeyError
      else if pem.contents.take ECDSA_P256_SPKI_PREFIX_BYTES.length
          ≠ ECDSA_P256_SPKI_PREFIX_BYTES then
        .error .UnrecognizedKeyTypeError
      else
        .ok { algorithm := .ECDSA_P256_SHA256_FIXED,
              raw_key_bytes :=
                pem.contents.drop ECDSA_P256_SPKI_PREFIX_BYTES.length }

/-- Embedding of `SpecificManifest::batch_signing_public_key`: look the
identifier up in the batch-signing-keys map, then decode and validate the
stored PEM string. -/
def batch_signing_public_key (pemParse : String → Option Pem)
    (m : SpecificManifest) (identifier : String) :
    Except ManifestError UnparsedPublicKey :=
  match hashMapGet identifier m.batch_signing_public_keys with
  | none => .error (.UnknownKeyError identifier)
  | some key => decode_and_validate_key pemParse key.public_key identifier

/-- State-threaded form of `batch_signing_public_key`, translating the Rust
method on `&self` statement by statement: every branch of the control flow
returns the result together with the record the next statement would see. -/
def batch_signing_public_key_tr (pemParse : String → Option Pem)
    (m : SpecificManifest) (identifier : String) :
    (Except ManifestError UnparsedPublicKey) × SpecificManifest :=
  match hashMapGet identifier m.batch_signing_public_keys with
  | none => (.error (.UnknownKeyError identifier), m)
  | some key =>
      match pemParse key.public_key with
      | none => (.error (.PemParseError identifier), m)
      | some pem =>
          if pem.tag ≠ "PUBLIC KEY" then (.error .WrongPemTagError, m)
          else if pem.contents.length < ECDSA_P256_SPKI_PREFIX_BYTES.length then
            (.error .TruncatedKeyError, m)
          else if pem.contents.take ECDSA_P256_SPKI_PREFIX_BYTES.length
              ≠ ECDSA_P256_SPKI_PREFIX_BYTES then
            (.error .UnrecognizedKeyTypeError, m)
          else
            (.ok { algorithm := .ECDSA_P256_SHA256_FIXED,
                   raw_key_bytes :=
                     pem.contents.drop ECDSA_P256_SPKI_PREFIX_BYTES.length }, m)

/-- Model of a parsed `reqwest::Url` restricted to the parts the manifest
address construction touches: scheme, host, and the serialized path (which
for URLs with a host always begins with a slash). -/
structure Url where
  scheme : String
  host : String
  path : String
deriving DecidableEq

/-- The schemes the WHATWG URL standard calls special and for which
`Url::set_scheme` allows switching to `https` (switching between a special
and a non-special scheme is refused, and `file` may not gain a host
requirement change). -/
def urlSpecialSchemes : List String := ["http", "https", "ws", "wss", "ftp"]

/-- The directory of a serialized URL path: everything up to and including
the final slash. Relative-reference resolution (RFC 3986 section 5.2.3 /
the WHATWG URL standard, implemented by the `url` crate) merges a relative
path onto this directory, discarding the base path's last segment. -/
def pathDirectory (p : String) : String :=
  ((p.data.reverse.dropWhile (fun c => c ≠ '/')).reverse).asString

/-- Test whether a reference string begins with a slash, i.e. is an
absolute-path reference. -/
def startsWithSlash (s : String) : Bool :=
  match s.data with
  | [] => false
  | c :: _ => c = '/'

/-- Model of `Url::join` for reference strings that are relative path
references (no scheme, no authority, no query or fragment), which covers the
peer-name and `specific-manifest.json` arguments the source joins: a
reference beginning with a slash replaces the whole path, any other
reference is appended to the directory of the current path. -/
def Url.joinRelative (u : Url) (ref : String) : Url :=
  if startsWithSlash ref then { u with path := ref }
  else { u with path := pathDirectory u.path ++ ref }

/-- Model of `Url::set_scheme("https")`: succeeds exactly when the current
scheme is one of the special schemes `https` belongs with and the host is
non-empty; otherwise the `url` crate refuses the change. -/
def Url.setSchemeHttps (u : Url) : Option Url :=
  if urlSpecialSchemes.contains u.scheme ∧ u.host ≠ "" then
    some { u with scheme := "https" }
  else none

/-- Embedding of the address-construction portion of
`SpecificManifest::from_https` (everything before the network fetch):
parse the base path, join the peer name, join `specific-manifest.json`,
force the scheme to `https`. `Url::parse` is the `parseUrl` parameter. -/
def from_https_manifest_url (parseUrl : String → Option Url)
    (base_path : String) (peer_name : String) : Except ManifestError Url :=
  match parseUrl base_path with
  | none => .error (.AddressConstructionError ("failed to parse base path into URL"))
  | some base =>
      let u1 := Url.joinRelative base peer_name
      let u2 := Url.joinRelative u1 ("specific-manifest.json")
      match Url.setSchemeHttps u2 with
      | none => .error (.AddressConstructionError ("failed to set URL scheme to HTTPS"))
      | some u3 => .ok u3

/-- A stand-in 65-byte uncompressed EC point used by the concrete fixtures. -/
def samplePoint : List Nat := List.replicate 65 7

/-- Concrete SPKI contents: the fixed 26-byte header followed by a 65-byte
point, 91 bytes in all. -/
def goodSpki : List Nat := ECDSA_P256_SPKI_PREFIX_BYTES ++ samplePoint

/-- A concrete stand-in for `pem::parse`, mapping a handful of fixture
strings to decoded PEM blocks and rejecting everything else. -/
def pemEnv : String → Option Pem := fun s =>
  if s = "good-pem" then some { tag := "PUBLIC KEY", contents := goodSpki }
  else if s = "wrong-tag-pem" then some { tag := "EC PUBLIC KEY", contents := goodSpki }
  else if s = "short-pem" then some { tag := "PUBLIC KEY", contents := [0x30, 0x59] }
  else if s = "bad-spki-pem" then some { tag := "PUBLIC KEY", contents := List.replicate 91 1 }
  else if s = "header-only-pem" then
    some { tag := "PUBLIC KEY", contents := ECDSA_P256_SPKI_PREFIX_BYTES }
  else none

/-- A fixture manifest built like the one in the source's `load_manifest`
test, with the signing key under identifier `fake-key-2`. -/
def sampleManifest (pemName : String) : SpecificManifest :=
  { format := 0,
    ingestion_bucket := "us-west-1/ingestion",
    peer_validation_bucket := "us-west-1/validation",
    batch_signing_public_keys :=
      [("fake-key-2", { public_key := pemName, expiration := "" })],
    packet_encryption_certificates :=
      [("fake-key-1", { certificate := "who cares" })] }

/-- Whether `needle` occurs as a contiguous run inside `hay`. -/
def containsSub (needle : List Char) : List Char → Bool
  | [] => needle.isEmpty
  | c :: rest => needle.isPrefixOf (c :: rest) || containsSub needle rest

/-- A concrete stand-in for `Url::parse` recognizing the one base address the
concrete scenarios use. -/
def exampleBaseParse : String → Option Url := fun s =>
  if s = "https://example.com/" then
    some { scheme := "https", host := "example.com", path := "/" }
  else none

/-- Serialization of the modelled URL back to an address string. -/
def Url.serialize (u : Url) : String := u.scheme ++ "://" ++ u.host ++ u.path

theorem spki_header_length : ECDSA_P256_SPKI_PREFIX_BYTES.length = 26 := rfl

theorem dropWhile_append_of_all {α : Type} (p : α → Bool) (l1 l2 : List α)
    (h : ∀ x ∈ l1, p x = true) :
    (l1 ++ l2).dropWhile p = l2.dropWhile p := by
  induction l1 with
  | nil => rfl
  | cons a t ih =>
      simp only [List.cons_append, List.dropWhile_cons,
        h a (List.mem_cons_self a t), if_true]
      exact ih fun x hx => h x (List.mem_cons_of_mem a hx)

theorem dropWhile_dropWhile {α : Type} (p : α → Bool) (l : List α) :
    (l.dropWhile p).dropWhile p = l.dropWhile p := by
  induction l with
  | nil => rfl
  | cons a t ih =>
      by_cases h : p a = true <;>
        simp [List.dropWhile_cons, h, ih]


theorem batch_signing_public_key_get_some (pemParse : String → Option Pem)
    (m : SpecificManifest) (identifier : String) (entry : BatchSigningPublicKey)
    (hget : hashMapGet identifier m.batch_signing_public_keys = some entry) :
    batch_signing_public_key pemParse m identifier
      = decode_and_validate_key pemParse entry.public_key identifier := by
  unfold batch_signing_public_key
  rw [hget]

theorem decode_and_validate_key_some (pemParse : String → Option Pem)
    (s identifier : String) (pem : Pem) (hpem : pemParse s = some pem) :
    decode_and_validate_key pemParse s identifier =
      if pem.tag ≠ "PUBLIC KEY" then .error .WrongPemTagError
      else if pem.contents.length < 26 then .error .TruncatedKeyError
      else if pem.contents.take 26 ≠ ECDSA_P256_SPKI_PREFIX_BYTES then
        .error .UnrecognizedKeyTypeError
      else .ok { algorithm := .ECDSA_P256_SHA256_FIXED,
                 raw_key_bytes := pem.contents.drop 26 } := by
  simp only [decode_and_validate_key, hpem, spki_header_length]

/-- Claim C1: for every manifest record and identifier whose batch-signing
entry's `public_key` string PEM-decodes with tag `PUBLIC KEY` and contents
whose first 26 bytes equal the fixed ECDSA-P256 SPKI header constant,
`batch_signing_public_key` succeeds and returns a verifier handle bound to
the `ECDSA_P256_SHA256_FIXED` algorithm whose raw key bytes are exactly the
decoded contents with the first 26 bytes removed. -/
theorem batch_signing_public_key_success (pemParse : String → Option Pem)
    (m : SpecificManifest) (identifier : String)
    (entry : BatchSigningPublicKey) (pem : Pem)
    (hget : hashMapGet identifier m.batch_signing_public_keys = some entry)
    (hpem : pemParse entry.public_key = some pem)
    (htag : pem.tag = "PUBLIC KEY")
    (hpre : pem.contents.take 26 = ECDSA_P256_SPKI_PREFIX_BYTES) :
    batch_signing_public_key pemParse m identifier =
      .ok { algorithm := .ECDSA_P256_SHA256_FIXED,
            raw_key_bytes := pem.contents.drop 26 } := by
  have hlen : 26 ≤ pem.contents.length := by
    have hl := congrArg List.length hpre
    rw [List.length_take, spki_header_length] at hl
    omega
  rw [batch_signing_public_key_get_some pemParse m identifier entry hget,
    decode_and_validate_key_some pemParse entry.public_key identifier pem hpem,
    if_neg (not_not_intro htag), if_neg (Nat.not_lt.mpr hlen),
    if_neg (not_not_intro hpre)]

/-- Concrete instance discharging the hypotheses of
`batch_signing_public_key_success`: a manifest whose `fake-key-2` entry
decodes to the fixed header followed by a 65-byte point. -/
theorem batch_signing_public_key_success_witness :
    batch_signing_public_key pemEnv (sampleManifest ("good-pem")) "fake-key-2" =
      .ok { algorithm := .ECDSA_P256_SHA256_FIXED,
            raw_key_bytes :=
              (Pem.contents { tag := "PUBLIC KEY", contents := goodSpki }).drop 26 } :=
  batch_signing_public_key_success pemEnv (sampleManifest ("good-pem")) "fake-key-2"
    { public_key := "good-pem", expiration := "" }
    { tag := "PUBLIC KEY", contents := goodSpki }
    rfl rfl rfl rfl

theorem from_reader_some (decode : List Nat → Option SpecificManifest)
    (input : List Nat) (m : SpecificManifest) (h : decode input = some m) :
    from_reader decode input =
      if m.format ≠ 0 then .error (.UnsupportedFormatError m.format)
      else .ok m := by
  unfold from_reader
  rw [h]

/-- Claim C2: for every byte stream the schema decoder accepts, loading
fails with `UnsupportedFormatError` exactly when the decoded `format` field
is non-zero, succeeds with the decoded record when `format` is zero, and
`UnsupportedFormatError` is distinct from `SchemaError`. -/
theorem from_reader_format_gate (decode : List Nat → Option SpecificManifest)
    (input : List Nat) (m : SpecificManifest) (h : decode input = some m) :
    ((∃ f, from_reader decode input = .error (.UnsupportedFormatError f)) ↔
      m.format ≠ 0) ∧
    (m.format = 0 → from_reader decode input = .ok m) ∧
    (∀ f, ManifestError.UnsupportedFormatError f ≠ ManifestError.SchemaError) := by
  rw [from_reader_some decode input m h]
  refine ⟨⟨?_, ?_⟩, ?_, ?_⟩
  · rintro ⟨f, hf⟩ h0
    rw [if_neg (not_not_intro h0)] at hf
    cases hf
  · intro hne
    exact ⟨m.format, by rw [if_pos hne]⟩
  · intro h0
    rw [if_neg (not_not_intro h0)]
  · intro f hf
    cases hf

/-- Concrete instance discharging the hypothesis of
`from_reader_format_gate` with a decoder returning the fixture manifest. -/
theorem from_reader_format_gate_witness :
    ((∃ f, from_reader (fun _ => some (sampleManifest ("good-pem"))) []
        = .error (.UnsupportedFormatError f)) ↔
      (sampleManifest ("good-pem")).format ≠ 0) ∧
    ((sampleManifest ("good-pem")).format = 0 →
      from_reader (fun _ => some (sampleManifest ("good-pem"))) []
        = .ok (sampleManifest ("good-pem"))) ∧
    (∀ f, ManifestError.UnsupportedFormatError f ≠ ManifestError.SchemaError) :=
  from_reader_format_gate (fun _ => some (sampleManifest ("good-pem"))) []
    (sampleManifest ("good-pem")) rfl

/-- Claim C3: for every entry that PEM-decodes, resolution fails with
`WrongPemTagError` when the tag differs from `PUBLIC KEY`, with
`TruncatedKeyError` when the tag matches but the contents are shorter than
26 bytes, and with `UnrecognizedKeyTypeError` when the contents are at least
26 bytes but the first 26 differ from the fixed header; in each case no
verifier handle is produced. -/
theorem batch_signing_public_key_malformed_key (pemParse : String → Option Pem)
    (m : SpecificManifest) (identifier : String)
    (entry : BatchSigningPublicKey) (pem : Pem)
    (hget : hashMapGet identifier m.batch_signing_public_keys = some entry)
    (hpem : pemParse entry.public_key = some pem) :
    (pem.tag ≠ "PUBLIC KEY" →
      batch_signing_public_key pemParse m identifier = .error .WrongPemTagError) ∧
    (pem.tag = "PUBLIC KEY" → pem.contents.length < 26 →
      batch_signing_public_key pemParse m identifier = .error .TruncatedKeyError) ∧
    (pem.tag = "PUBLIC KEY" → 26 ≤ pem.contents.length →
      pem.contents.take 26 ≠ ECDSA_P256_SPKI_PREFIX_BYTES →
      batch_signing_public_key pemParse m identifier
        = .error .UnrecognizedKeyTypeError) ∧
    (∀ k, (pem.tag ≠ "PUBLIC KEY" ∨ pem.contents.length < 26 ∨
        pem.contents.take 26 ≠ ECDSA_P256_SPKI_PREFIX_BYTES) →
      batch_signing_public_key pemParse m identifier ≠ .ok k) := by
  rw [batch_signing_public_key_get_some pemParse m identifier entry hget,
    decode_and_validate_key_some pemParse entry.public_key identifier pem hpem]
  refine ⟨?_, ?_, ?_, ?_⟩
  · intro htag
    rw [if_pos htag]
  · intro htag hlt
    rw [if_neg (not_not_intro htag), if_pos hlt]
  · intro htag hge hpre
    rw [if_neg (not_not_intro htag), if_neg (Nat.not_lt.mpr hge), if_pos hpre]
  · rintro k (htag | hlt | hpre) hok
    · rw [if_pos htag] at hok
      cases hok
    · by_cases htag : pem.tag = "PUBLIC KEY"
      · rw [if_neg (not_not_intro htag), if_pos hlt] at hok
        cases hok
      · rw [if_pos htag] at hok
        cases hok
    · by_cases htag : pem.tag = "PUBLIC KEY"
      · by_cases hlt : pem.contents.length < 26
        · rw [if_neg (not_not_intro htag), if_pos hlt] at hok
          cases hok
        · rw [if_neg (not_not_intro htag), if_neg hlt, if_pos hpre] at hok
          cases hok
      · rw [if_pos htag] at hok
        cases hok

/-- Concrete instance discharging the hypotheses of
`batch_signing_public_key_malformed_key`: the `EC PUBLIC KEY` tag fixture of
the source's `invalid_public_key` test. -/
theorem batch_signing_public_key_malformed_key_witness :
    ((Pem.tag { tag := "EC PUBLIC KEY", contents := goodSpki }) ≠ "PUBLIC KEY" →
      batch_signing_public_key pemEnv (sampleManifest ("wrong-tag-pem")) "fake-key-2"
        = .error .WrongPemTagError) ∧
    ((Pem.tag { tag := "EC PUBLIC KEY", contents := goodSpki }) = "PUBLIC KEY" →
      (Pem.contents { tag := "EC PUBLIC KEY", contents := goodSpki }).length < 26 →
      batch_signing_public_key pemEnv (sampleManifest ("wrong-tag-pem")) "fake-key-2"
        = .error .TruncatedKeyError) ∧
    ((Pem.tag { tag := "EC PUBLIC KEY", contents := goodSpki }) = "PUBLIC KEY" →
      26 ≤ (Pem.contents { tag := "EC PUBLIC KEY", contents := goodSpki }).length →
      (Pem.contents { tag := "EC PUBLIC KEY", contents := goodSpki }).take 26
        ≠ ECDSA_P256_SPKI_PREFIX_BYTES →
      batch_signing_public_key pemEnv (sampleManifest ("wrong-tag-pem")) "fake-key-2"
        = .error .UnrecognizedKeyTypeError) ∧
    (∀ k, ((Pem.tag { tag := "EC PUBLIC KEY", contents := goodSpki }) ≠ "PUBLIC KEY" ∨
        (Pem.contents { tag := "EC PUBLIC KEY", contents := goodSpki }).length < 26 ∨
        (Pem.contents { tag := "EC PUBLIC KEY", contents := goodSpki }).take 26
          ≠ ECDSA_P256_SPKI_PREFIX_BYTES) →
      batch_signing_public_key pemEnv (sampleManifest ("wrong-tag-pem")) "fake-key-2"
        ≠ .ok k) :=
  batch_signing_public_key_malformed_key pemEnv (sampleManifest ("wrong-tag-pem"))
    "fake-key-2" { public_key := "wrong-tag-pem", expiration := "" }
    { tag := "EC PUBLIC KEY", contents := goodSpki } rfl rfl

/-- Claim C4: for every record and identifier absent from the
batch-signing-keys map, resolution fails with `UnknownKeyError` for that
identifier and produces no verifier handle. -/
theorem batch_signing_public_key_unknown_key (pemParse : String → Option Pem)
    (m : SpecificManifest) (identifier : String)
    (h : hashMapGet identifier m.batch_signing_public_keys = none) :
    batch_signing_public_key pemParse m identifier
      = .error (.UnknownKeyError identifier) ∧
    (∀ k, batch_signing_public_key pemParse m identifier ≠ .ok k) := by
  have he : batch_signing_public_key pemParse m identifier
      = .error (.UnknownKeyError identifier) := by
    unfold batch_signing_public_key
    rw [h]
  exact ⟨he, fun k hk => by rw [he] at hk; cases hk⟩

/-- Concrete instance discharging the hypothesis of
`batch_signing_public_key_unknown_key`: `fake-key-3` is not in the fixture
manifest's map. -/
theorem batch_signing_public_key_unknown_key_witness :
    batch_signing_public_key pemEnv (sampleManifest ("good-pem")) "fake-key-3"
      = .error (.UnknownKeyError ("fake-key-3")) ∧
    (∀ k, batch_signing_public_key pemEnv (sampleManifest ("good-pem")) "fake-key-3"
      ≠ .ok k) :=
  batch_signing_public_key_unknown_key pemEnv (sampleManifest ("good-pem"))
    "fake-key-3" rfl

/-- Claim C8: for every input byte stream the schema decoder rejects,
loading fails with `SchemaError`, and no incomplete record is
produced. -/
theorem from_reader_schema_error (decode : List Nat → Option SpecificManifest)
    (input : List Nat) (h : decode input = none) :
    from_reader decode input = .error .SchemaError ∧
    (∀ m, from_reader decode input ≠ .ok m) := by
  have he : from_reader decode input = .error .SchemaError := by
    unfold from_reader
    rw [h]
  exact ⟨he, fun m hm => by rw [he] at hm; cases hm⟩

/-- Concrete instance discharging the hypothesis of
`from_reader_schema_error` with a decoder rejecting every stream. -/
theorem from_reader_schema_error_witness :
    from_reader (fun _ => none) [] = .error .SchemaError ∧
    (∀ m, from_reader (fun _ => none) [] ≠ .ok m) :=
  from_reader_schema_error (fun _ => none) [] rfl

/-- Claim C5 (code bug evaluation): at a concrete record whose `fake-key-2`
entry carries the `EC PUBLIC KEY` tag, resolution fails with the wrong-tag
error, whose message is the source's literal string with the unfilled
placeholder; the identifier `fake-key-2` does not occur in that message,
whereas the unknown-key message does contain its identifier. -/
theorem wrong_pem_tag_message_omits_identifier :
    batch_signing_public_key pemEnv (sampleManifest ("wrong-tag-pem")) "fake-key-2"
      = .error .WrongPemTagError ∧
    ManifestError.message .WrongPemTagError
      = "key for identifier \x7b\x7d is not a PEM encoded public key" ∧
    containsSub ("fake-key-2".data)
      ((ManifestError.message .WrongPemTagError).data) = false ∧
    containsSub ("fake-key-3".data)
      ((ManifestError.message (.UnknownKeyError ("fake-key-3"))).data) = true :=
  ⟨rfl, rfl, rfl, rfl⟩

/-- Counterexample to claim C6: the resolver accepts decoded contents that
are exactly the 26-byte header and nothing else — 26 bytes rather than the
claimed 91 — and returns a handle whose raw key bytes are empty rather than
65 bytes long. -/
theorem raw_key_bytes_not_65_counterexample :
    batch_signing_public_key pemEnv (sampleManifest ("header-only-pem")) "fake-key-2"
      = .ok { algorithm := .ECDSA_P256_SHA256_FIXED, raw_key_bytes := [] } ∧
    pemEnv ("header-only-pem")
      = some { tag := "PUBLIC KEY", contents := ECDSA_P256_SPKI_PREFIX_BYTES } ∧
    ECDSA_P256_SPKI_PREFIX_BYTES.length ≠ 91 ∧
    List.length ([] : List Nat) ≠ 65 :=
  ⟨rfl, rfl, by decide, by decide⟩

/-- Claim C6 (amended): a successful resolution requires only that the
decoded contents carry the `PUBLIC KEY` tag, be at least 26 bytes long and
begin with the fixed header; the handle's raw key bytes are the contents
with the header removed, of length (contents length − 26) — 65 exactly when
the contents are 91 bytes, but no length beyond the header is enforced. -/
theorem batch_signing_public_key_success_inversion (pemParse : String → Option Pem)
    (m : SpecificManifest) (identifier : String)
    (entry : BatchSigningPublicKey) (pem : Pem) (k : UnparsedPublicKey)
    (hget : hashMapGet identifier m.batch_signing_public_keys = some entry)
    (hpem : pemParse entry.public_key = some pem)
    (hok : batch_signing_public_key pemParse m identifier = .ok k) :
    pem.tag = "PUBLIC KEY" ∧ 26 ≤ pem.contents.length ∧
    pem.contents.take 26 = ECDSA_P256_SPKI_PREFIX_BYTES ∧
    k.algorithm = .ECDSA_P256_SHA256_FIXED ∧
    k.raw_key_bytes = pem.contents.drop 26 ∧
    k.raw_key_bytes.length = pem.contents.length - 26 := by
  rw [batch_signing_public_key_get_some pemParse m identifier entry hget,
    decode_and_validate_key_some pemParse entry.public_key identifier pem hpem] at hok
  by_cases htag : pem.tag = "PUBLIC KEY"
  · rw [if_neg (not_not_intro htag)] at hok
    by_cases hlt : pem.contents.length < 26
    · rw [if_pos hlt] at hok
      cases hok
    · rw [if_neg hlt] at hok
      by_cases hpre : pem.contents.take 26 = ECDSA_P256_SPKI_PREFIX_BYTES
      · rw [if_neg (not_not_intro hpre)] at hok
        injection hok with hk
        subst hk
        exact ⟨htag, Nat.le_of_not_lt hlt, hpre, rfl, rfl, List.length_drop 26 pem.contents⟩
      · rw [if_pos hpre] at hok
        cases hok
  · rw [if_pos htag] at hok
    cases hok

/-- Concrete instance discharging the hypotheses of
`batch_signing_public_key_success_inversion` at the well-formed fixture. -/
theorem batch_signing_public_key_success_inversion_witness :
    (Pem.tag { tag := "PUBLIC KEY", contents := goodSpki }) = "PUBLIC KEY" ∧
    26 ≤ (Pem.contents { tag := "PUBLIC KEY", contents := goodSpki }).length ∧
    (Pem.contents { tag := "PUBLIC KEY", contents := goodSpki }).take 26
      = ECDSA_P256_SPKI_PREFIX_BYTES ∧
    (UnparsedPublicKey.algorithm
        { algorithm := .ECDSA_P256_SHA256_FIXED, raw_key_bytes := samplePoint })
      = .ECDSA_P256_SHA256_FIXED ∧
    (UnparsedPublicKey.raw_key_bytes
        { algorithm := .ECDSA_P256_SHA256_FIXED, raw_key_bytes := samplePoint })
      = (Pem.contents { tag := "PUBLIC KEY", contents := goodSpki }).drop 26 ∧
    (UnparsedPublicKey.raw_key_bytes
        { algorithm := .ECDSA_P256_SHA256_FIXED, raw_key_bytes := samplePoint }).length
      = (Pem.contents { tag := "PUBLIC KEY", contents := goodSpki }).length - 26 :=
  batch_signing_public_key_success_inversion pemEnv (sampleManifest ("good-pem"))
    "fake-key-2" { public_key := "good-pem", expiration := "" }
    { tag := "PUBLIC KEY", contents := goodSpki }
    { algorithm := .ECDSA_P256_SHA256_FIXED, raw_key_bytes := samplePoint }
    rfl rfl rfl

/-- Claim C9: the PEM-decode-and-SPKI-validate step and the whole resolution
are pure functions of their inputs — embedded without any state or effect —
so two calls over equal records, identifiers and key strings yield equal
results. -/
theorem key_resolution_deterministic (pemParse : String → Option Pem)
    (m1 m2 : SpecificManifest) (i1 i2 s1 s2 j1 j2 : String)
    (hm : m1 = m2) (hi : i1 = i2) (hs : s1 = s2) (hj : j1 = j2) :
    batch_signing_public_key pemParse m1 i1
      = batch_signing_public_key pemParse m2 i2 ∧
    decode_and_validate_key pemParse s1 j1
      = decode_and_validate_key pemParse s2 j2 := by
  subst hm
  subst hi
  subst hs
  subst hj
  exact ⟨rfl, rfl⟩

/-- Concrete instance discharging the equality hypotheses of
`key_resolution_deterministic`. -/
theorem key_resolution_deterministic_witness :
    batch_signing_public_key pemEnv (sampleManifest ("good-pem")) "fake-key-2"
      = batch_signing_public_key pemEnv (sampleManifest ("good-pem")) "fake-key-2" ∧
    decode_and_validate_key pemEnv ("good-pem") "fake-key-2"
      = decode_and_validate_key pemEnv ("good-pem") "fake-key-2" :=
  key_resolution_deterministic pemEnv (sampleManifest ("good-pem"))
    (sampleManifest ("good-pem")) "fake-key-2" "fake-key-2" "good-pem" "good-pem"
    "fake-key-2" "fake-key-2" rfl rfl rfl rfl

theorem batch_signing_public_key_tr_eq (pemParse : String → Option Pem)
    (m : SpecificManifest) (identifier : String) :
    batch_signing_public_key_tr pemParse m identifier
      = (batch_signing_public_key pemParse m identifier, m) := by
  unfold batch_signing_public_key_tr batch_signing_public_key decode_and_validate_key
  repeat (first | rfl | split)

/-- Claim C10: resolution never modifies the record it operates on — in the
state-threaded translation the record after the call equals the record
before it, field for field, the threaded result agrees with the direct
embedding, and a second call on the resulting record repeats the first
(each call re-decodes from the stored PEM string; there is no cache). -/
theorem batch_signing_public_key_preserves_record (pemParse : String → Option Pem)
    (m : SpecificManifest) (identifier : String) :
    (batch_signing_public_key_tr pemParse m identifier).2 = m ∧
    (batch_signing_public_key_tr pemParse m identifier).2.format = m.format ∧
    (batch_signing_public_key_tr pemParse m identifier).2.ingestion_bucket
      = m.ingestion_bucket ∧
    (batch_signing_public_key_tr pemParse m identifier).2.peer_validation_bucket
      = m.peer_validation_bucket ∧
    (batch_signing_public_key_tr pemParse m identifier).2.batch_signing_public_keys
      = m.batch_signing_public_keys ∧
    (batch_signing_public_key_tr pemParse m identifier).2.packet_encryption_certificates
      = m.packet_encryption_certificates ∧
    (batch_signing_public_key_tr pemParse m identifier).1
      = batch_signing_public_key pemParse m identifier ∧
    batch_signing_public_key_tr pemParse
        (batch_signing_public_key_tr pemParse m identifier).2 identifier
      = batch_signing_public_key_tr pemParse m identifier := by
  simp [batch_signing_public_key_tr_eq]

/-- Counterexample to claim C7: with base address `https://example.com/` and
peer name `peer`, the constructed address is
`https://example.com/specific-manifest.json` — the relative join discards
the peer-name segment — not the claimed concatenation
`https://example.com/peer/specific-manifest.json`. -/
theorem from_https_manifest_url_counterexample :
    from_https_manifest_url exampleBaseParse ("https://example.com/") "peer"
      = .ok { scheme := "https", host := "example.com",
              path := "/specific-manifest.json" } ∧
    Url.serialize { scheme := "https", host := "example.com",
                    path := "/specific-manifest.json" }
      = "https://example.com/specific-manifest.json" ∧
    "https://example.com/" ++ "peer" ++ "/specific-manifest.json"
      = "https://example.com/peer/specific-manifest.json" ∧
    ("https://example.com/specific-manifest.json" : String)
      ≠ "https://example.com/peer/specific-manifest.json" :=
  ⟨rfl, rfl, rfl, by decide⟩

/-- Claim C7 (amended): the fetched address is produced by relative-URL
resolution, not concatenation. If the base address fails to parse, loading
fails with `AddressConstructionError` before any fetch. If the base parses,
then: when its scheme is one of the special schemes and its host is
non-empty, the result is `https` on the base's host, with path obtained by
joining `specific-manifest.json` onto the directory of the peer-joined path
— and when the peer name contains no slash its segment is discarded, the
fetched path being the base directory followed by `specific-manifest.json`;
when instead the scheme cannot be forced to `https` (non-special scheme or
empty host), loading fails with `AddressConstructionError` before any
fetch. -/
theorem from_https_manifest_url_join_semantics
    (parseUrl : String → Option Url) (base_path peer_name : String) :
    (parseUrl base_path = none →
      from_https_manifest_url parseUrl base_path peer_name
        = .error (.AddressConstructionError ("failed to parse base path into URL"))) ∧
    (∀ b : Url, parseUrl base_path = some b →
      ((urlSpecialSchemes.contains b.scheme = true ∧ b.host ≠ "") →
        from_https_manifest_url parseUrl base_path peer_name
          = .ok { scheme := "https", host := b.host,
                  path := pathDirectory (Url.joinRelative b peer_name).path
                            ++ "specific-manifest.json" }) ∧
      ((∀ c ∈ peer_name.data, c ≠ '/') →
        pathDirectory (Url.joinRelative b peer_name).path = pathDirectory b.path) ∧
      (¬ (urlSpecialSchemes.contains b.scheme = true ∧ b.host ≠ "") →
        from_https_manifest_url parseUrl base_path peer_name
          = .error (.AddressConstructionError ("failed to set URL scheme to HTTPS")))) := by
  constructor
  · intro hn
    unfold from_https_manifest_url
    rw [hn]
  · intro b hparse
    have hps : (Url.joinRelative b peer_name).scheme = b.scheme := by
      unfold Url.joinRelative
      split <;> rfl
    have hph : (Url.joinRelative b peer_name).host = b.host := by
      unfold Url.joinRelative
      split <;> rfl
    have hjoin2 : ∀ u : Url, Url.joinRelative u ("specific-manifest.json")
        = { scheme := u.scheme, host := u.host,
            path := pathDirectory u.path ++ "specific-manifest.json" } := by
      intro u
      unfold Url.joinRelative
      rw [if_neg (by decide : ¬ (startsWithSlash ("specific-manifest.json") = true))]
    refine ⟨?_, ?_, ?_⟩
    · rintro ⟨hscheme, hhost⟩
      have hset : Url.setSchemeHttps
          { scheme := b.scheme, host := b.host,
            path := pathDirectory (Url.joinRelative b peer_name).path
                      ++ "specific-manifest.json" }
          = some { scheme := "https", host := b.host,
                   path := pathDirectory (Url.joinRelative b peer_name).path
                             ++ "specific-manifest.json" } := by
        unfold Url.setSchemeHttps
        rw [if_pos ⟨hscheme, hhost⟩]
      simp only [from_https_manifest_url, hparse]
      rw [hjoin2 (Url.joinRelative b peer_name), hps, hph, hset]
    · intro hnc
      have hsw : startsWithSlash peer_name = false := by
        unfold startsWithSlash
        cases hd : peer_name.data with
        | nil => rfl
        | cons c rest =>
            have hc : c ≠ '/' := hnc c (by rw [hd]; exact List.mem_cons_self c rest)
            simp [hc]
      unfold Url.joinRelative
      rw [if_neg (by simp [hsw])]
      have hallrev : ∀ x ∈ peer_name.data.reverse,
          (fun c => decide (c ≠ '/')) x = true := by
        intro x hx
        simp only [decide_eq_true_eq]
        exact hnc x (List.mem_reverse.mp hx)
      show pathDirectory (pathDirectory b.path ++ peer_name) = pathDirectory b.path
      unfold pathDirectory
      rw [String.data_append]
      have hdat : (List.asString ((b.path.data.reverse.dropWhile
          (fun c => decide (c ≠ '/'))).reverse)).data
          = (b.path.data.reverse.dropWhile (fun c => decide (c ≠ '/'))).reverse := rfl
      rw [hdat, List.reverse_append, List.reverse_reverse,
        dropWhile_append_of_all _ _ _ hallrev,
        dropWhile_dropWhile]
    · intro hfail
      have hset : Url.setSchemeHttps
          { scheme := b.scheme, host := b.host,
            path := pathDirectory (Url.joinRelative b peer_name).path
                      ++ "specific-manifest.json" }
          = none := by
        unfold Url.setSchemeHttps
        rw [if_neg hfail]
      simp only [from_https_manifest_url, hparse]
      rw [hjoin2 (Url.joinRelative b peer_name), hps, hph, hset]
